import Mathlib

/-!
Shallow embedding of the scoring and matchmaking logic of the
pinnacle-hacks backend (src/backend/src/routes/scoring.ts and
src/backend/src/routes/matchmaking.ts).

Modelling conventions:
* JavaScript numbers are modelled by `ℤ` for the integer-valued raw
  metrics and by `ℚ` for the intermediate weighted sums.  Every
  arithmetic expression appearing in the scored routines is exact on
  the documented input ranges, and `Math.round x = ⌊x + 1/2⌋` on
  non-negative values, which is Mathlib's `round` on `ℚ`.
* Dates are modelled as integer timestamps in milliseconds since the
  epoch (the value of `Date.getTime()`).  `new Date()` — the sampled
  current time — becomes an explicit `now : ℤ` parameter of the two
  functions that read the clock.
* A GitHub pull request is reduced to the one bit the code inspects
  (`merged_at` truthy), an issue to `state === "closed"`, and a commit
  to its author date.
-/

/-- GitHub repository metadata, reduced to the fields read by
`calculateCommunityEngagement` and `calculateCodeQuality`.
`language` is the truthiness of the `language` field. -/
structure RepoData where
  stargazers_count : ℤ
  forks_count : ℤ
  watchers_count : ℤ
  open_issues_count : ℤ
  size : ℤ
  language : Bool

/-- A tweet, reduced to the fields read by `calculateEngagement`
(`public_metrics`) and `calculateActivity` (`created_at`, as a
millisecond timestamp). -/
structure Tweet where
  like_count : ℤ
  retweet_count : ℤ
  reply_count : ℤ
  created_at : ℤ

/-- `calculateCodeActivity` (scoring.ts:348-360).  `commits` is the list
of commit author dates as millisecond timestamps; `now` is the sampled
current time (`new Date()`). -/
def calculateCodeActivity (now : ℤ) (commits : List ℤ) : ℤ :=
  if commits.length = 0 then 0
  else
    let thirtyDaysAgo := now - 30 * 24 * 60 * 60 * 1000
    let recentCommits := commits.filter (fun d => decide (thirtyDaysAgo < d))
    let frequency : ℚ := (recentCommits.length : ℚ) / 30
    min (round (frequency * 25)) 100

/-- `calculateCommunityEngagement` (scoring.ts:362-369). -/
def calculateCommunityEngagement (repoData : RepoData) : ℤ :=
  let engagement : ℚ := (repoData.stargazers_count : ℚ) * 0.5 +
    (repoData.forks_count : ℚ) * 0.3 +
    (repoData.watchers_count : ℚ) * 0.2
  min (round (engagement / 10)) 100

/-- The PR term of `calculateProjectMaintenance` (scoring.ts:377):
`prs.length > 0 ? (mergedPRs.length / prs.length) * 50 : 0`.
A PR is its `merged_at` truthiness bit. -/
def prMaintenance (prs : List Bool) : ℚ :=
  if 0 < prs.length then
    (((prs.filter id).length : ℚ) / (prs.length : ℚ)) * 50
  else 0

/-- The issue term of `calculateProjectMaintenance` (scoring.ts:378):
an issue is the bit `state === "closed"`. -/
def issueMaintenance (issues : List Bool) : ℚ :=
  if 0 < issues.length then
    (((issues.filter id).length : ℚ) / (issues.length : ℚ)) * 50
  else 0

/-- `calculateProjectMaintenance` (scoring.ts:371-381). -/
def calculateProjectMaintenance (prs issues : List Bool) : ℤ :=
  if prs.length = 0 ∧ issues.length = 0 then 0
  else round (prMaintenance prs + issueMaintenance issues)

/-- `calculateCodeQuality` (scoring.ts:383-394). -/
def calculateCodeQuality (repoData : RepoData) : ℤ :=
  let score : ℤ :=
    (if 100 < repoData.stargazers_count then 20 else 0) +
    (if 10 < repoData.forks_count then 20 else 0) +
    (if repoData.open_issues_count < 10 then 20 else 0) +
    (if 1000 < repoData.size then 20 else 0) +
    (if repoData.language then 20 else 0)
  min score 100

/-- The pure weighted composition of `calculateTechScore`
(scoring.ts:194-205): the four sub-scores and their 30/25/25/20
weighting.  The surrounding HTTP fetching and database writes are out
of scope of the embedding. -/
def calculateTechScore (now : ℤ) (commits : List ℤ) (repoData : RepoData)
    (prs issues : List Bool) : ℤ :=
  let codeActivity := calculateCodeActivity now commits
  let communityEngagement := calculateCommunityEngagement repoData
  let projectMaintenance := calculateProjectMaintenance prs issues
  let codeQuality := calculateCodeQuality repoData
  round ((codeActivity : ℚ) * 0.30 +
    (communityEngagement : ℚ) * 0.25 +
    (projectMaintenance : ℚ) * 0.25 +
    (codeQuality : ℚ) * 0.20)

/-- `calculateReach` (scoring.ts:397-405). -/
def calculateReach (followers_count : ℤ) (verified : Bool) : ℤ :=
  let score := min (round ((followers_count : ℚ) / 1000)) 50
  let score := if verified then score + 20 else score
  min score 100

/-- `calculateEngagement` (scoring.ts:407-417).  The `reduce` over the
tweets is rendered as the sum of the per-tweet engagement numbers. -/
def calculateEngagement (tweets : List Tweet) : ℤ :=
  if tweets.length = 0 then 0
  else
    let totalEngagement : ℤ :=
      (tweets.map (fun t => t.like_count + t.retweet_count + t.reply_count)).sum
    let avgEngagement : ℚ := (totalEngagement : ℚ) / (tweets.length : ℚ)
    min (round (avgEngagement / 10)) 100

/-- `calculateActivity` (scoring.ts:419-431). -/
def calculateActivity (now : ℤ) (tweets : List Tweet) : ℤ :=
  if tweets.length = 0 then 0
  else
    let thirtyDaysAgo := now - 30 * 24 * 60 * 60 * 1000
    let recentTweets := tweets.filter (fun t => decide (thirtyDaysAgo < t.created_at))
    let frequency : ℚ := (recentTweets.length : ℚ) / 30
    min (round (frequency * 20)) 100

/-- The pure weighted composition of `calculateSocialScore`
(scoring.ts:292-302): reach/engagement/activity with 40/35/25
weighting. -/
def calculateSocialScore (now : ℤ) (followers_count : ℤ) (verified : Bool)
    (tweets : List Tweet) : ℤ :=
  let reach := calculateReach followers_count verified
  let engagement := calculateEngagement tweets
  let activity := calculateActivity now tweets
  round ((reach : ℚ) * 0.40 + (engagement : ℚ) * 0.35 + (activity : ℚ) * 0.25)

/-- A stored `TechScore` record, reduced to its `score` field. -/
structure TechScoreRec where
  score : ℤ

/-- A stored `SocialScore` record, reduced to its `score` field. -/
structure SocialScoreRec where
  score : ℤ

/-- A stored GI/narrative analysis record, reduced to its
`marketPotential` field. -/
structure GIRec where
  marketPotential : ℤ

/-- `calculateOverallScore` (scoring.ts:433-440).  `techScore?.score || 0`
is 0 exactly when the record is absent or its score is 0, which
coincides with reading 0 out of an absent record. -/
def calculateOverallScore (techScore : Option TechScoreRec)
    (socialScore : Option SocialScoreRec) (giScore : Option GIRec) : ℤ :=
  let tech : ℤ := match techScore with | some r => r.score | none => 0
  let social : ℤ := match socialScore with | some r => r.score | none => 0
  let gi : ℤ := match giScore with | some r => r.marketPotential | none => 0
  round ((tech : ℚ) * 0.40 + (social : ℚ) * 0.30 + (gi : ℚ) * 0.30)

/-- The §4.1 composite rule, written from the spec's words for the
refinement check of the overall score: round(40%·tech + 30%·social +
30%·externalAnalysisScore) over the three defaulted-to-0 inputs. -/
def overallScoreSpec (tech social externalAnalysisScore : ℤ) : ℤ :=
  round ((tech : ℚ) * 0.40 + (social : ℚ) * 0.30 +
    (externalAnalysisScore : ℚ) * 0.30)

/-- An `Investor` row, reduced to the fields read by the matchmaking
routines (matchmaking.ts). -/
structure Investor where
  preferredIndustries : List String
  preferredStages : List String
  techScoreMin : ℤ
  socialScoreMin : ℤ
  teamSizeMin : ℤ
  investmentRangeMin : ℤ
  investmentRangeMax : ℤ
  foundedYearMin : ℤ
  portfolio : List String

/-- An `AgriTechStartup` row, reduced to the fields read by the
matchmaking routines.  `landType` is the field the code matches against
`preferredIndustries` (it plays the role of the industry/category).
`fundingRequired` is `none` when the column is null; `foundedYear`
models `new Date(startup.createdAt).getFullYear()`. -/
structure Startup where
  id : String
  landType : String
  stage : String
  techScore : ℤ
  socialScore : ℤ
  teamSize : ℤ
  fundingRequired : Option ℤ
  foundedYear : ℤ

/-- The funding-range guard of `calculateMatchScore`
(matchmaking.ts:387-393): `startup.fundingRequired && fundingRequired >=
investmentRangeMin && fundingRequired <= investmentRangeMax`.  A null
column and a declared ask of 0 are both falsy. -/
def fundingOk (investor : Investor) (startup : Startup) : Bool :=
  match startup.fundingRequired with
  | none => false
  | some f =>
    decide (f ≠ 0) && decide (investor.investmentRangeMin ≤ f) &&
      decide (f ≤ investor.investmentRangeMax)

/-- `calculateMatchScore` (matchmaking.ts:360-396). -/
def calculateMatchScore (investor : Investor) (startup : Startup) : ℤ :=
  let score : ℚ :=
    (if startup.landType ∈ investor.preferredIndustries then 30 else 0) +
    (if startup.stage ∈ investor.preferredStages then 25 else 0) +
    ((startup.techScore : ℚ) / 100) * 20 +
    ((startup.socialScore : ℚ) / 100) * 15 +
    (if investor.teamSizeMin ≤ startup.teamSize then 5 else 0) +
    (if fundingOk investor startup then 5 else 0)
  round score

/-- `generateMatchReasons` (matchmaking.ts:399-436): one sentence per
satisfied condition, pushed in source order. -/
def generateMatchReasons (investor : Investor) (startup : Startup) : List String :=
  (if startup.landType ∈ investor.preferredIndustries then
    ["Perfect industry alignment (" ++ startup.landType ++ ")"] else []) ++
  (if startup.stage ∈ investor.preferredStages then
    ["Stage (" ++ startup.stage ++ ") matches your investment focus"] else []) ++
  (if investor.techScoreMin ≤ startup.techScore then
    ["Strong tech score (" ++ toString startup.techScore ++
      "/100) meets your minimum (" ++ toString investor.techScoreMin ++ "+)"] else []) ++
  (if investor.socialScoreMin ≤ startup.socialScore then
    ["Good social score (" ++ toString startup.socialScore ++
      "/100) meets your minimum (" ++ toString investor.socialScoreMin ++ "+)"] else []) ++
  (if investor.teamSizeMin ≤ startup.teamSize then
    ["Team size (" ++ toString startup.teamSize ++
      ") exceeds your preference (" ++ toString investor.teamSizeMin ++ "+)"] else []) ++
  (if investor.foundedYearMin ≤ startup.foundedYear then
    ["Founded in " ++ toString startup.foundedYear ++
      ", meets your minimum (" ++ toString investor.foundedYearMin ++ "+)"] else [])

/-- A `Match` row, as created by the matchmaking endpoints. -/
structure MatchRecord where
  investorId : String
  startupId : String
  score : ℤ
  reasons : List String
  status : String

/-- `prisma.match.findUnique` on the `investorId_startupId` unique key
(matchmaking.ts:152-159), over a database modelled as the list of
existing `Match` rows. -/
def findMatch (db : List MatchRecord) (investorId startupId : String) :
    Option MatchRecord :=
  db.find? (fun m => m.investorId == investorId && m.startupId == startupId)

/-- `POST /api/matchmaking` (matchmaking.ts:147-201) on validated input:
returns the HTTP status and the database after the request.  A
duplicate (investorId, startupId) pair answers 409 and leaves the
database untouched; otherwise the row is created and 201 returned. -/
def postMatch (db : List MatchRecord) (input : MatchRecord) :
    ℕ × List MatchRecord :=
  match findMatch db input.investorId input.startupId with
  | some _ => (409, db)
  | none => (201, db ++ [input])

/-- The `matchingStartups` database filter of
`POST /api/matchmaking/generate` (matchmaking.ts:292-314). -/
def generateFilter (db : List MatchRecord) (investorId : String)
    (investor : Investor) (startup : Startup) : Bool :=
  decide (startup.landType ∈ investor.preferredIndustries) &&
  decide (startup.stage ∈ investor.preferredStages) &&
  decide (investor.techScoreMin ≤ startup.techScore) &&
  decide (investor.socialScoreMin ≤ startup.socialScore) &&
  decide (investor.teamSizeMin ≤ startup.teamSize) &&
  !(decide (startup.id ∈ investor.portfolio)) &&
  db.all (fun m => !(m.investorId == investorId && m.startupId == startup.id))

/-- The match-creation pass of `POST /api/matchmaking/generate`
(matchmaking.ts:292-343): filter the startups, truncate to `limit`, and
create one pending `Match` row per admitted startup. -/
def generateMatches (db : List MatchRecord) (investorId : String)
    (investor : Investor) (startups : List Startup) (limit : ℕ) :
    List MatchRecord :=
  ((startups.filter (generateFilter db investorId investor)).take limit).map
    (fun s =>
      { investorId := investorId
        startupId := s.id
        score := calculateMatchScore investor s
        reasons := generateMatchReasons investor s
        status := "pending" })

/-! ## Rounding helpers -/

/-- `round` maps a rational at least `n` to an integer at least `n`. -/
lemma int_le_round {n : ℤ} {x : ℚ} (h : (n : ℚ) ≤ x) : n ≤ round x := by
  rw [round_eq]
  exact Int.le_floor.mpr (by linarith)

/-- `round` maps a rational at most `n` to an integer at most `n`. -/
lemma round_le_int {x : ℚ} {n : ℤ} (h : x ≤ (n : ℚ)) : round x ≤ n := by
  rw [round_eq, ← Int.lt_add_one_iff, Int.floor_lt]
  push_cast
  linarith

/-! ## Range lemmas for the individual sub-scores -/

/-- Code activity is always within [0, 100]. -/
lemma calculateCodeActivity_bounds (now : ℤ) (commits : List ℤ) :
    0 ≤ calculateCodeActivity now commits ∧ calculateCodeActivity now commits ≤ 100 := by
  unfold calculateCodeActivity
  split
  · norm_num
  · refine ⟨le_min ?_ (by norm_num), min_le_right _ _⟩
    apply int_le_round
    positivity

/-- Community engagement is within [0, 100] for non-negative counts. -/
lemma calculateCommunityEngagement_bounds (r : RepoData)
    (h1 : 0 ≤ r.stargazers_count) (h2 : 0 ≤ r.forks_count) (h3 : 0 ≤ r.watchers_count) :
    0 ≤ calculateCommunityEngagement r ∧ calculateCommunityEngagement r ≤ 100 := by
  unfold calculateCommunityEngagement
  have h1' : (0:ℚ) ≤ (r.stargazers_count : ℚ) := by exact_mod_cast h1
  have h2' : (0:ℚ) ≤ (r.forks_count : ℚ) := by exact_mod_cast h2
  have h3' : (0:ℚ) ≤ (r.watchers_count : ℚ) := by exact_mod_cast h3
  refine ⟨le_min ?_ (by norm_num), min_le_right _ _⟩
  apply int_le_round
  have : (0:ℚ) ≤ (r.stargazers_count : ℚ) * 0.5 + (r.forks_count : ℚ) * 0.3 +
      (r.watchers_count : ℚ) * 0.2 := by linarith
  push_cast
  linarith [div_nonneg this (by norm_num : (0:ℚ) ≤ 10)]

/-- The merged-PR ratio term lies in [0, 50]. -/
lemma prMaintenance_bounds (prs : List Bool) :
    0 ≤ prMaintenance prs ∧ prMaintenance prs ≤ 50 := by
  unfold prMaintenance
  split
  case isTrue h =>
    have hle : (((prs.filter id).length : ℚ)) ≤ ((prs.length : ℚ)) := by
      exact_mod_cast List.length_filter_le id prs
    have hpos : (0:ℚ) < (prs.length : ℚ) := by exact_mod_cast h
    have hdiv : ((prs.filter id).length : ℚ) / (prs.length : ℚ) ≤ 1 :=
      (div_le_one hpos).mpr hle
    have hdiv0 : (0:ℚ) ≤ ((prs.filter id).length : ℚ) / (prs.length : ℚ) := by positivity
    constructor <;> linarith
  case isFalse => norm_num

/-- The closed-issue ratio term lies in [0, 50]. -/
lemma issueMaintenance_bounds (issues : List Bool) :
    0 ≤ issueMaintenance issues ∧ issueMaintenance issues ≤ 50 := by
  unfold issueMaintenance
  split
  case isTrue h =>
    have hle : (((issues.filter id).length : ℚ)) ≤ ((issues.length : ℚ)) := by
      exact_mod_cast List.length_filter_le id issues
    have hpos : (0:ℚ) < (issues.length : ℚ) := by exact_mod_cast h
    have hdiv : ((issues.filter id).length : ℚ) / (issues.length : ℚ) ≤ 1 :=
      (div_le_one hpos).mpr hle
    have hdiv0 : (0:ℚ) ≤ ((issues.filter id).length : ℚ) / (issues.length : ℚ) := by positivity
    constructor <;> linarith
  case isFalse => norm_num

/-- Project maintenance is always within [0, 100]. -/
lemma calculateProjectMaintenance_bounds (prs issues : List Bool) :
    0 ≤ calculateProjectMaintenance prs issues ∧
      calculateProjectMaintenance prs issues ≤ 100 := by
  unfold calculateProjectMaintenance
  split
  · norm_num
  · obtain ⟨p0, p1⟩ := prMaintenance_bounds prs
    obtain ⟨i0, i1⟩ := issueMaintenance_bounds issues
    exact ⟨int_le_round (by push_cast; linarith), round_le_int (by push_cast; linarith)⟩

/-- Code quality is always within [0, 100]. -/
lemma calculateCodeQuality_bounds (r : RepoData) :
    0 ≤ calculateCodeQuality r ∧ calculateCodeQuality r ≤ 100 := by
  unfold calculateCodeQuality
  refine ⟨le_min ?_ (by norm_num), min_le_right _ _⟩
  split_ifs <;> norm_num

/-- The weighted tech composite is within [0, 100] for non-negative
repository counts. -/
lemma calculateTechScore_bounds (now : ℤ) (commits : List ℤ) (repoData : RepoData)
    (prs issues : List Bool)
    (h1 : 0 ≤ repoData.stargazers_count) (h2 : 0 ≤ repoData.forks_count)
    (h3 : 0 ≤ repoData.watchers_count) :
    0 ≤ calculateTechScore now commits repoData prs issues ∧
      calculateTechScore now commits repoData prs issues ≤ 100 := by
  obtain ⟨a0, a1⟩ := calculateCodeActivity_bounds now commits
  obtain ⟨b0, b1⟩ := calculateCommunityEngagement_bounds repoData h1 h2 h3
  obtain ⟨c0, c1⟩ := calculateProjectMaintenance_bounds prs issues
  obtain ⟨d0, d1⟩ := calculateCodeQuality_bounds repoData
  have a0' : (0:ℚ) ≤ (calculateCodeActivity now commits : ℚ) := by exact_mod_cast a0
  have a1' : (calculateCodeActivity now commits : ℚ) ≤ 100 := by exact_mod_cast a1
  have b0' : (0:ℚ) ≤ (calculateCommunityEngagement repoData : ℚ) := by exact_mod_cast b0
  have b1' : (calculateCommunityEngagement repoData : ℚ) ≤ 100 := by exact_mod_cast b1
  have c0' : (0:ℚ) ≤ (calculateProjectMaintenance prs issues : ℚ) := by exact_mod_cast c0
  have c1' : (calculateProjectMaintenance prs issues : ℚ) ≤ 100 := by exact_mod_cast c1
  have d0' : (0:ℚ) ≤ (calculateCodeQuality repoData : ℚ) := by exact_mod_cast d0
  have d1' : (calculateCodeQuality repoData : ℚ) ≤ 100 := by exact_mod_cast d1
  unfold calculateTechScore
  exact ⟨int_le_round (by push_cast; linarith), round_le_int (by push_cast; linarith)⟩

/-- Reach is within [0, 100] for a non-negative follower count. -/
lemma calculateReach_bounds (followers_count : ℤ) (verified : Bool)
    (h : 0 ≤ followers_count) :
    0 ≤ calculateReach followers_count verified ∧
      calculateReach followers_count verified ≤ 100 := by
  unfold calculateReach
  have h0 : (0:ℤ) ≤ min (round ((followers_count : ℚ) / 1000)) 50 := by
    refine le_min ?_ (by norm_num)
    apply int_le_round
    have : (0:ℚ) ≤ (followers_count : ℚ) := by exact_mod_cast h
    positivity
  refine ⟨le_min ?_ (by norm_num), min_le_right _ _⟩
  cases verified <;> simp only [if_true, if_false, Bool.false_eq_true] <;> omega

/-- Average-engagement is within [0, 100] for non-negative tweet metrics. -/
lemma calculateEngagement_bounds (tweets : List Tweet)
    (h : ∀ t ∈ tweets, 0 ≤ t.like_count ∧ 0 ≤ t.retweet_count ∧ 0 ≤ t.reply_count) :
    0 ≤ calculateEngagement tweets ∧ calculateEngagement tweets ≤ 100 := by
  unfold calculateEngagement
  split
  · norm_num
  · have hsum : 0 ≤ (tweets.map
        (fun t => t.like_count + t.retweet_count + t.reply_count)).sum := by
      apply List.sum_nonneg
      intro x hx
      obtain ⟨t, ht, rfl⟩ := List.mem_map.mp hx
      obtain ⟨hl, hr, hp⟩ := h t ht
      omega
    refine ⟨le_min ?_ (by norm_num), min_le_right _ _⟩
    apply int_le_round
    rw [Int.cast_zero]
    have hS : (0:ℚ) ≤
        (((tweets.map (fun t => t.like_count + t.retweet_count + t.reply_count)).sum : ℤ) : ℚ) := by
      exact_mod_cast hsum
    have hlen : (0:ℚ) ≤ (tweets.length : ℚ) := by positivity
    exact div_nonneg (div_nonneg hS hlen) (by norm_num)

/-- Tweet activity is always within [0, 100]. -/
lemma calculateActivity_bounds (now : ℤ) (tweets : List Tweet) :
    0 ≤ calculateActivity now tweets ∧ calculateActivity now tweets ≤ 100 := by
  unfold calculateActivity
  split
  · norm_num
  · refine ⟨le_min ?_ (by norm_num), min_le_right _ _⟩
    apply int_le_round
    positivity

/-- The weighted social composite is within [0, 100] for non-negative
raw metrics. -/
lemma calculateSocialScore_bounds (now : ℤ) (followers_count : ℤ) (verified : Bool)
    (tweets : List Tweet) (hf : 0 ≤ followers_count)
    (h : ∀ t ∈ tweets, 0 ≤ t.like_count ∧ 0 ≤ t.retweet_count ∧ 0 ≤ t.reply_count) :
    0 ≤ calculateSocialScore now followers_count verified tweets ∧
      calculateSocialScore now followers_count verified tweets ≤ 100 := by
  obtain ⟨a0, a1⟩ := calculateReach_bounds followers_count verified hf
  obtain ⟨b0, b1⟩ := calculateEngagement_bounds tweets h
  obtain ⟨c0, c1⟩ := calculateActivity_bounds now tweets
  have a0' : (0:ℚ) ≤ (calculateReach followers_count verified : ℚ) := by exact_mod_cast a0
  have a1' : (calculateReach followers_count verified : ℚ) ≤ 100 := by exact_mod_cast a1
  have b0' : (0:ℚ) ≤ (calculateEngagement tweets : ℚ) := by exact_mod_cast b0
  have b1' : (calculateEngagement tweets : ℚ) ≤ 100 := by exact_mod_cast b1
  have c0' : (0:ℚ) ≤ (calculateActivity now tweets : ℚ) := by exact_mod_cast c0
  have c1' : (calculateActivity now tweets : ℚ) ≤ 100 := by exact_mod_cast c1
  unfold calculateSocialScore
  exact ⟨int_le_round (by push_cast; linarith), round_le_int (by push_cast; linarith)⟩

/-- The 40/30/30 rounded blend of three values in [0, 100] is in [0, 100]. -/
lemma overall_round_bounds {t s g : ℤ}
    (t0 : 0 ≤ t) (t1 : t ≤ 100) (s0 : 0 ≤ s) (s1 : s ≤ 100) (g0 : 0 ≤ g) (g1 : g ≤ 100) :
    0 ≤ round ((t:ℚ) * 0.40 + (s:ℚ) * 0.30 + (g:ℚ) * 0.30) ∧
      round ((t:ℚ) * 0.40 + (s:ℚ) * 0.30 + (g:ℚ) * 0.30) ≤ 100 := by
  have t0' : (0:ℚ) ≤ (t:ℚ) := by exact_mod_cast t0
  have t1' : (t:ℚ) ≤ 100 := by exact_mod_cast t1
  have s0' : (0:ℚ) ≤ (s:ℚ) := by exact_mod_cast s0
  have s1' : (s:ℚ) ≤ 100 := by exact_mod_cast s1
  have g0' : (0:ℚ) ≤ (g:ℚ) := by exact_mod_cast g0
  have g1' : (g:ℚ) ≤ 100 := by exact_mod_cast g1
  exact ⟨int_le_round (by push_cast; linarith), round_le_int (by push_cast; linarith)⟩

/-- The composite overall score is in [0, 100] when every present record
is in range. -/
lemma calculateOverallScore_bounds (techScore : Option TechScoreRec)
    (socialScore : Option SocialScoreRec) (giScore : Option GIRec)
    (ht : ∀ r ∈ techScore, 0 ≤ r.score ∧ r.score ≤ 100)
    (hs : ∀ r ∈ socialScore, 0 ≤ r.score ∧ r.score ≤ 100)
    (hg : ∀ r ∈ giScore, 0 ≤ r.marketPotential ∧ r.marketPotential ≤ 100) :
    0 ≤ calculateOverallScore techScore socialScore giScore ∧
      calculateOverallScore techScore socialScore giScore ≤ 100 := by
  rcases techScore with _ | t <;> rcases socialScore with _ | s <;> rcases giScore with _ | g <;>
    simp only [calculateOverallScore] <;>
    apply overall_round_bounds <;>
    first
      | omega
      | exact (ht _ (Option.mem_def.mpr rfl)).1
      | exact (ht _ (Option.mem_def.mpr rfl)).2
      | exact (hs _ (Option.mem_def.mpr rfl)).1
      | exact (hs _ (Option.mem_def.mpr rfl)).2
      | exact (hg _ (Option.mem_def.mpr rfl)).1
      | exact (hg _ (Option.mem_def.mpr rfl)).2

/-- The match score is in [0, 100] when the stored startup scores are. -/
lemma calculateMatchScore_bounds (investor : Investor) (startup : Startup)
    (h1 : 0 ≤ startup.techScore) (h2 : startup.techScore ≤ 100)
    (h3 : 0 ≤ startup.socialScore) (h4 : startup.socialScore ≤ 100) :
    0 ≤ calculateMatchScore investor startup ∧
      calculateMatchScore investor startup ≤ 100 := by
  unfold calculateMatchScore
  have h1' : (0:ℚ) ≤ (startup.techScore : ℚ) := by exact_mod_cast h1
  have h2' : (startup.techScore : ℚ) ≤ 100 := by exact_mod_cast h2
  have h3' : (0:ℚ) ≤ (startup.socialScore : ℚ) := by exact_mod_cast h3
  have h4' : (startup.socialScore : ℚ) ≤ 100 := by exact_mod_cast h4
  constructor
  · apply int_le_round
    push_cast
    split_ifs <;> linarith
  · apply round_le_int
    push_cast
    split_ifs <;> linarith

/-- Shifting the clock and every commit timestamp by the same offset
leaves the recent-commit count unchanged. -/
lemma shift_filter_length (now δ c : ℤ) (l : List ℤ) :
    ((l.map (fun d => d + δ)).filter (fun d => decide (now + δ - c < d))).length =
      (l.filter (fun d => decide (now - c < d))).length := by
  rw [List.filter_map, List.length_map]
  congr 1
  apply List.filter_congr
  intro a _
  simp only [Function.comp_apply]
  apply decide_eq_decide.mpr
  omega

/-- Shifting the clock and every tweet timestamp by the same offset
leaves the recent-tweet count unchanged. -/
lemma shift_tweet_filter_length (now δ c : ℤ) (l : List Tweet) :
    ((l.map (fun t => { t with created_at := t.created_at + δ })).filter
        (fun t => decide (now + δ - c < t.created_at))).length =
      (l.filter (fun t => decide (now - c < t.created_at))).length := by
  rw [List.filter_map, List.length_map]
  congr 1
  apply List.filter_congr
  intro a _
  simp only [Function.comp_apply]
  apply decide_eq_decide.mpr
  omega

/-- The reasons list has exactly one entry per satisfied source
condition: industry, stage, tech-minimum, social-minimum, team-size
and founded-year, in that order. -/
lemma length_generateMatchReasons (investor : Investor) (startup : Startup) :
    (generateMatchReasons investor startup).length =
      (if startup.landType ∈ investor.preferredIndustries then 1 else 0) +
      (if startup.stage ∈ investor.preferredStages then 1 else 0) +
      (if investor.techScoreMin ≤ startup.techScore then 1 else 0) +
      (if investor.socialScoreMin ≤ startup.socialScore then 1 else 0) +
      (if investor.teamSizeMin ≤ startup.teamSize then 1 else 0) +
      (if investor.foundedYearMin ≤ startup.foundedYear then 1 else 0) := by
  unfold generateMatchReasons
  simp only [List.length_append, apply_ite List.length, List.length_singleton,
    List.length_nil]

/-! ## Concrete inputs used by the worked examples -/

/-- The §8 worked repository: stars 150, forks 15, watchers 0, 5 open
issues, size 2000, a primary language present. -/
def repoC1 : RepoData := ⟨150, 15, 0, 5, 2000, true⟩

/-- 30 commits, all inside the trailing 30-day window of `nowC1`. -/
def commitsC1 : List ℤ := List.replicate 30 1

/-- The sampled clock for the §8 tech example: exactly 30 days past
timestamp 0, so every commit of `commitsC1` is recent. -/
def nowC1 : ℤ := 2592000000

/-- The §8 worked investor: prefers Climate Tech at the early stage,
team of at least 5, checks of 500k-10M; minimum scores and founding
year low enough that the example startup meets every threshold. -/
def invC2 : Investor := ⟨["Climate Tech"], ["early"], 70, 60, 5, 500000, 10000000, 2020, []⟩

/-- The §8 worked startup: Climate Tech, early stage, tech 78, social
65, team of 8, asking 2,000,000, founded 2024. -/
def stC2 : Startup := ⟨"s1", "Climate Tech", "early", 78, 65, 8, some 2000000, 2024⟩

/-- An investor whose six reason conditions are all unsatisfiable for
`stC8` while the startup's funding ask sits inside the investor's
range. -/
def invC8 : Investor := ⟨[], [], 1, 1, 1, 1, 10, 3000, []⟩

/-- A startup with zero scores and team, founded before `invC8`'s
founding-year minimum, declaring a funding ask of 5. -/
def stC8 : Startup := ⟨"s8", "X", "idea", 0, 0, 0, some 5, 2024⟩

/-! ## Claims -/

/-- C1 (counterexample): on the §8 inputs (stars 150, forks 15,
watchers 0) the community-engagement sub-score is 8, not the 9 the
spec's example asserts: (150·0.5 + 15·0.3 + 0·0.2)/10 = 7.95, which
rounds to 8. -/
theorem C1_counterexample : calculateCommunityEngagement repoC1 ≠ 9 := by
  norm_num [calculateCommunityEngagement, repoC1, round_eq, min_def]

/-- C1 (amended): on the §8 inputs, codeActivity = 25, maintenance = 0,
quality = 100, communityEngagement = 8 (not 9), and the weighted tech
composite round(0.30·25 + 0.25·8 + 0.25·0 + 0.20·100) = round(29.5)
still equals 30. -/
theorem C1_theorem :
    calculateCodeActivity nowC1 commitsC1 = 25 ∧
    calculateProjectMaintenance [] [] = 0 ∧
    calculateCodeQuality repoC1 = 100 ∧
    calculateCommunityEngagement repoC1 = 8 ∧
    calculateTechScore nowC1 commitsC1 repoC1 [] [] = 30 := by
  have h : ((commitsC1.filter
      (fun d => decide (nowC1 - 30 * 24 * 60 * 60 * 1000 < d))).length : ℕ) = 30 := by
    decide
  refine ⟨?_, ?_, ?_, ?_, ?_⟩ <;>
    norm_num [calculateCodeActivity, calculateProjectMaintenance, calculateCodeQuality,
      calculateCommunityEngagement, calculateTechScore, prMaintenance, issueMaintenance,
      repoC1, nowC1, commitsC1, h, round_eq, min_def]

/-- C2 (counterexample): on the §8 match example the code returns 90,
not 91 — it rounds once at the end, round(30 + 25 + 15.6 + 9.75 + 5 +
5) = round(90.35) = 90, instead of rounding the tech and social terms
separately as the spec's arithmetic does. -/
theorem C2_counterexample : calculateMatchScore invC2 stC2 ≠ 91 := by
  norm_num [calculateMatchScore, fundingOk, invC2, stC2, round_eq]

/-- C2 (amended): on the §8 match example the match score is 90 and the
generated reasons list has exactly 6 entries. -/
theorem C2_theorem :
    calculateMatchScore invC2 stC2 = 90 ∧
    (generateMatchReasons invC2 stC2).length = 6 := by
  constructor
  · norm_num [calculateMatchScore, fundingOk, invC2, stC2, round_eq]
  · decide

/-- C3: for every combination of optional tech, social and GI records
the composite overall score equals round(0.40·tech + 0.30·social +
0.30·externalAnalysisScore), each input defaulting to 0 when its
record is absent. -/
theorem C3_theorem (techScore : Option TechScoreRec)
    (socialScore : Option SocialScoreRec) (giScore : Option GIRec) :
    calculateOverallScore techScore socialScore giScore =
      overallScoreSpec ((techScore.map (fun r => r.score)).getD 0)
        ((socialScore.map (fun r => r.score)).getD 0)
        ((giScore.map (fun r => r.marketPotential)).getD 0) := by
  cases techScore <;> cases socialScore <;> cases giScore <;> rfl

/-- C4: for inputs within documented ranges (non-negative raw counts,
stored scores and marketPotential in [0,100]) the computed techScore,
socialScore, overallScore and matchScore all lie in [0, 100]. They are
integers by construction: each is a value of `ℤ`. -/
theorem C4_theorem (now : ℤ) (commits : List ℤ) (repoData : RepoData)
    (prs issues : List Bool) (followers_count : ℤ) (verified : Bool)
    (tweets : List Tweet) (techScore : Option TechScoreRec)
    (socialScore : Option SocialScoreRec) (giScore : Option GIRec)
    (investor : Investor) (startup : Startup)
    (hstars : 0 ≤ repoData.stargazers_count)
    (hforks : 0 ≤ repoData.forks_count)
    (hwatch : 0 ≤ repoData.watchers_count)
    (hfol : 0 ≤ followers_count)
    (htweets : ∀ t ∈ tweets, 0 ≤ t.like_count ∧ 0 ≤ t.retweet_count ∧ 0 ≤ t.reply_count)
    (htech : ∀ r ∈ techScore, 0 ≤ r.score ∧ r.score ≤ 100)
    (hsocial : ∀ r ∈ socialScore, 0 ≤ r.score ∧ r.score ≤ 100)
    (hgi : ∀ r ∈ giScore, 0 ≤ r.marketPotential ∧ r.marketPotential ≤ 100)
    (hst1 : 0 ≤ startup.techScore) (hst2 : startup.techScore ≤ 100)
    (hss1 : 0 ≤ startup.socialScore) (hss2 : startup.socialScore ≤ 100) :
    (0 ≤ calculateTechScore now commits repoData prs issues ∧
      calculateTechScore now commits repoData prs issues ≤ 100) ∧
    (0 ≤ calculateSocialScore now followers_count verified tweets ∧
      calculateSocialScore now followers_count verified tweets ≤ 100) ∧
    (0 ≤ calculateOverallScore techScore socialScore giScore ∧
      calculateOverallScore techScore socialScore giScore ≤ 100) ∧
    (0 ≤ calculateMatchScore investor startup ∧
      calculateMatchScore investor startup ≤ 100) :=
  ⟨calculateTechScore_bounds now commits repoData prs issues hstars hforks hwatch,
   calculateSocialScore_bounds now followers_count verified tweets hfol htweets,
   calculateOverallScore_bounds techScore socialScore giScore htech hsocial hgi,
   calculateMatchScore_bounds investor startup hst1 hst2 hss1 hss2⟩

/-- C5 (counterexample): `calculateCodeActivity` reads the ambient
clock, so the same supplied commit list produces different outputs at
different call times — it is not a function of the supplied inputs
alone. One commit at timestamp 0 scores 1 when the clock reads 0 and 0
once the clock has passed the 30-day window. -/
theorem C5_counterexample :
    calculateCodeActivity 0 [0] ≠ calculateCodeActivity 2592000001 [0] := by
  have h1 : calculateCodeActivity 0 [0] = 1 := by
    norm_num [calculateCodeActivity, List.filter, round_eq, min_def]
  have h2 : calculateCodeActivity 2592000001 [0] = 0 := by
    norm_num [calculateCodeActivity, List.filter, round_eq, min_def]
  omega

/-- C5 (amended): every scoring routine is a deterministic pure
function of its supplied inputs together with the sampled current
time.  Beyond Lean functions being deterministic by construction, the
two clock-reading routines depend on the clock only through the ages
of the data points: shifting the clock and every timestamp by the same
offset leaves both outputs unchanged. -/
theorem C5_theorem (now δ : ℤ) (commits : List ℤ) (tweets : List Tweet) :
    calculateCodeActivity (now + δ) (commits.map (fun d => d + δ)) =
      calculateCodeActivity now commits ∧
    calculateActivity (now + δ)
        (tweets.map (fun t => { t with created_at := t.created_at + δ })) =
      calculateActivity now tweets := by
  constructor
  · simp only [calculateCodeActivity, List.length_map, shift_filter_length]
  · simp only [calculateActivity, List.length_map, shift_tweet_filter_length]

/-- C6: creating a Match for an (investor, startup) pair that already
has one answers HTTP 409 Conflict and leaves the stored matches
untouched — nothing is overwritten and nothing is created. -/
theorem C6_theorem (db : List MatchRecord) (input : MatchRecord)
    (h : (findMatch db input.investorId input.startupId).isSome = true) :
    postMatch db input = (409, db) := by
  unfold postMatch
  obtain ⟨m, hm⟩ := Option.isSome_iff_exists.mp h
  rw [hm]

/-- A stored match for the pair ("inv1", "st1"). -/
def dbC6 : List MatchRecord := [⟨"inv1", "st1", 50, [], "pending"⟩]

/-- A creation request for the same ("inv1", "st1") pair. -/
def inputC6 : MatchRecord := ⟨"inv1", "st1", 77, [], "pending"⟩

/-- C6 witness: a duplicate creation against a concrete one-row
database answers 409 and returns the database unchanged. -/
theorem C6_witness :
    (findMatch dbC6 inputC6.investorId inputC6.startupId).isSome = true ∧
      postMatch dbC6 inputC6 = (409, dbC6) :=
  ⟨by decide, C6_theorem dbC6 inputC6 (by decide)⟩

/-- C7: every sub-score degrades to 0 on zero data points instead of
failing — the empty commit list gives codeActivity 0, the empty tweet
list gives engagement 0 and activity 0, and each maintenance ratio
term is 0 when its denominator is 0 (an empty PR or issue list).  The
functions are total, so no input makes them throw. -/
theorem C7_theorem (now : ℤ) :
    calculateCodeActivity now [] = 0 ∧
    calculateEngagement [] = 0 ∧
    calculateActivity now [] = 0 ∧
    prMaintenance [] = 0 ∧
    issueMaintenance [] = 0 ∧
    calculateProjectMaintenance [] [] = 0 :=
  ⟨rfl, rfl, rfl, rfl, rfl, rfl⟩

/-- C8 (counterexample): the reasons list does not follow the §4.2
weight table. For `invC8`/`stC8` the funding ask (5) lies inside the
investor's range [1, 10], so the claim requires a funding sentence,
yet the code generates no reason at all: its sixth condition is the
founding year, not the funding range, and here every code condition is
unsatisfied. -/
theorem C8_counterexample :
    fundingOk invC8 stC8 = true ∧ generateMatchReasons invC8 stC8 = [] := by
  decide

/-- C8 (amended): the reasons list contains exactly one sentence per
satisfied condition among the six conditions the code actually tests —
industry match, stage match, techScore ≥ techScoreMin, socialScore ≥
socialScoreMin, teamSize ≥ teamSizeMin and foundedYear ≥
foundedYearMin — in that fixed order, hence between 0 and 6 entries;
the funding-range condition of the weight table generates no
sentence. -/
theorem C8_theorem (investor : Investor) (startup : Startup) :
    (generateMatchReasons investor startup).length =
      (if startup.landType ∈ investor.preferredIndustries then 1 else 0) +
      (if startup.stage ∈ investor.preferredStages then 1 else 0) +
      (if investor.techScoreMin ≤ startup.techScore then 1 else 0) +
      (if investor.socialScoreMin ≤ startup.socialScore then 1 else 0) +
      (if investor.teamSizeMin ≤ startup.teamSize then 1 else 0) +
      (if investor.foundedYearMin ≤ startup.foundedYear then 1 else 0) ∧
    (generateMatchReasons investor startup).length ≤ 6 := by
  refine ⟨length_generateMatchReasons investor startup, ?_⟩
  rw [length_generateMatchReasons]
  split_ifs <;> norm_num

/-- C9: an investor with empty preferred-industry and preferred-stage
sets scores at most 70 against any startup whose stored scores are
within [0, 100]: the 30-point and 25-point binary terms are
unreachable (the remaining terms in fact bound the score by 45). -/
theorem C9_theorem (investor : Investor) (startup : Startup)
    (h1 : investor.preferredIndustries = []) (h2 : investor.preferredStages = [])
    (ht : startup.techScore ≤ 100) (hs : startup.socialScore ≤ 100) :
    calculateMatchScore investor startup ≤ 70 := by
  unfold calculateMatchScore
  apply round_le_int
  have ht' : (startup.techScore : ℚ) ≤ 100 := by exact_mod_cast ht
  have hs' : (startup.socialScore : ℚ) ≤ 100 := by exact_mod_cast hs
  simp only [h1, h2, List.not_mem_nil, if_false]
  push_cast
  split_ifs <;> linarith

/-- An investor with no preferred industries or stages. -/
def invC9 : Investor := ⟨[], [], 0, 0, 1, 100, 200, 2000, []⟩

/-- A startup with in-range stored scores for the C9 witness. -/
def stC9 : Startup := ⟨"s9", "AgTech", "mvp", 80, 90, 4, some 150, 2022⟩

/-- C9 witness: the bound holds at a concrete empty-preference
investor. -/
theorem C9_witness :
    invC9.preferredIndustries = [] ∧ invC9.preferredStages = [] ∧
      stC9.techScore ≤ 100 ∧ stC9.socialScore ≤ 100 ∧
      calculateMatchScore invC9 stC9 ≤ 70 :=
  ⟨rfl, rfl, by decide, by decide,
    C9_theorem invC9 stC9 rfl rfl (by decide) (by decide)⟩

/-- C10: every Match record created by the generate pass has score at
least 60 and at least 5 reasons, because the database filter only
admits startups matching the investor's industry and stage preferences
and meeting its techScore, socialScore and teamSize minimums (startup
scores assumed non-negative, per the stored-score range). -/
theorem C10_theorem (db : List MatchRecord) (investorId : String)
    (investor : Investor) (startups : List Startup) (limit : ℕ)
    (h : ∀ s ∈ startups, 0 ≤ s.techScore ∧ 0 ≤ s.socialScore)
    (m : MatchRecord) (hm : m ∈ generateMatches db investorId investor startups limit) :
    60 ≤ m.score ∧ 5 ≤ m.reasons.length := by
  unfold generateMatches at hm
  obtain ⟨s, hs, rfl⟩ := List.mem_map.mp hm
  have hs' : s ∈ startups.filter (generateFilter db investorId investor) :=
    List.take_subset _ _ hs
  obtain ⟨hmem, hfil⟩ := List.mem_filter.mp hs'
  simp only [generateFilter, Bool.and_eq_true, decide_eq_true_eq] at hfil
  obtain ⟨⟨⟨⟨⟨⟨hind, hstage⟩, htech⟩, hsoc⟩, hteam⟩, hport⟩, hmatches⟩ := hfil
  obtain ⟨ht0, hs0⟩ := h s hmem
  constructor
  · show 60 ≤ calculateMatchScore investor s
    unfold calculateMatchScore
    apply int_le_round
    have ht0' : (0:ℚ) ≤ (s.techScore : ℚ) := by exact_mod_cast ht0
    have hs0' : (0:ℚ) ≤ (s.socialScore : ℚ) := by exact_mod_cast hs0
    rw [if_pos hind, if_pos hstage, if_pos hteam]
    push_cast
    split_ifs <;> linarith
  · show 5 ≤ (generateMatchReasons investor s).length
    rw [length_generateMatchReasons]
    rw [if_pos hind, if_pos hstage, if_pos htech, if_pos hsoc, if_pos hteam]
    split_ifs <;> norm_num

/-- An investor whose preferences admit `stC10`. -/
def invC10 : Investor := ⟨["AgTech"], ["mvp"], 10, 10, 2, 1000, 5000, 2020, []⟩

/-- A startup passing every filter condition of `invC10`. -/
def stC10 : Startup := ⟨"w10", "AgTech", "mvp", 50, 50, 3, none, 2021⟩

/-- The Match record the generate pass creates for
(`invC10`, `stC10`). -/
def matchC10 : MatchRecord :=
  ⟨"inv10", stC10.id, calculateMatchScore invC10 stC10,
    generateMatchReasons invC10 stC10, "pending"⟩

/-- C10 witness: on a concrete one-startup pool the generated record
scores at least 60 with at least 5 reasons. -/
theorem C10_witness :
    (0 ≤ stC10.techScore ∧ 0 ≤ stC10.socialScore) ∧
      60 ≤ matchC10.score ∧ 5 ≤ matchC10.reasons.length := by
  refine ⟨⟨by decide, by decide⟩, ?_⟩
  have h : ∀ s ∈ [stC10], 0 ≤ s.techScore ∧ 0 ≤ s.socialScore := by
    intro s hs
    rw [List.mem_singleton] at hs
    subst hs
    exact ⟨by decide, by decide⟩
  exact C10_theorem [] "inv10" invC10 [stC10] 10 h matchC10 (List.Mem.head _)

/-- A stored tech-score record for the C4 witness. -/
def techRecC4 : Option TechScoreRec := some ⟨80⟩

/-- A stored social-score record for the C4 witness. -/
def socialRecC4 : Option SocialScoreRec := some ⟨60⟩

/-- A stored GI record for the C4 witness. -/
def giRecC4 : Option GIRec := some ⟨70⟩

/-- C4 witness: the range bounds instantiated at concrete in-range
inputs. -/
theorem C4_witness :
    (0 ≤ repoC1.stargazers_count ∧ 0 ≤ stC10.techScore ∧ stC10.techScore ≤ 100) ∧
    (0 ≤ calculateTechScore 0 [] repoC1 [] [] ∧
      calculateTechScore 0 [] repoC1 [] [] ≤ 100) ∧
    (0 ≤ calculateSocialScore 0 500 true [] ∧
      calculateSocialScore 0 500 true [] ≤ 100) ∧
    (0 ≤ calculateOverallScore techRecC4 socialRecC4 giRecC4 ∧
      calculateOverallScore techRecC4 socialRecC4 giRecC4 ≤ 100) ∧
    (0 ≤ calculateMatchScore invC10 stC10 ∧
      calculateMatchScore invC10 stC10 ≤ 100) := by
  refine ⟨⟨by decide, by decide, by decide⟩, ?_⟩
  exact C4_theorem 0 [] repoC1 [] [] 500 true [] techRecC4 socialRecC4 giRecC4
    invC10 stC10 (by decide) (by decide) (by decide) (by decide)
    (by simp)
    (by intro r hr
        simp only [techRecC4, Option.mem_def, Option.some.injEq] at hr
        subst hr
        exact ⟨by decide, by decide⟩)
    (by intro r hr
        simp only [socialRecC4, Option.mem_def, Option.some.injEq] at hr
        subst hr
        exact ⟨by decide, by decide⟩)
    (by intro r hr
        simp only [giRecC4, Option.mem_def, Option.some.injEq] at hr
        subst hr
        exact ⟨by decide, by decide⟩)
    (by decide) (by decide) (by decide) (by decide)
